import Mathlib

/-!
Shallow embedding of the reformatit-backend conversion service
(src/main.py and src/test/test_converted_images.py), with theorems
settling the specification claims about admission, rate limiting,
timeouts, dispatch routing, write verification, artifact naming,
path resolution and periodic cleanup.
-/

namespace Reformatit

/-- Python str.upper() for the ASCII tokens this service handles. -/
def pyUpper (s : String) : String := ⟨s.data.map Char.toUpper⟩

/-- Python str.lower() for the ASCII tokens this service handles. -/
def pyLower (s : String) : String := ⟨s.data.map Char.toLower⟩

/-! ## Constants (src/main.py lines 37-73) -/

/-- ALLOWED_DOC_FORMATS (main.py line 37). -/
def ALLOWED_DOC_FORMATS : List String := ["PDF", "DOCX", "ODT", "TXT", "RTF"]

/-- MAX_DOC_FILE_SIZE = 10 * 1024 * 1024 (main.py line 45). -/
def MAX_DOC_FILE_SIZE : Nat := 10 * 1024 * 1024

/-- TEMP_DOC_DIR (main.py line 46). -/
def TEMP_DOC_DIR : String := "temp_documents"

/-- MAX_FILE_SIZE = 10 * 1024 * 1024 (main.py line 50). -/
def MAX_FILE_SIZE : Nat := 10 * 1024 * 1024

/-- DELETE_IMG_AFTER_SECONDS = 3600 (main.py line 51). -/
def DELETE_IMG_AFTER_SECONDS : Int := 3600

/-- TIMEOUT_IMG = 10 (main.py line 53), used by both endpoints. -/
def TIMEOUT_IMG : Nat := 10

/-- TEMP_IMAGE_DIR (main.py line 54). -/
def TEMP_IMAGE_DIR : String := "temp_images"

/-- ALLOWED_FORMATS, the image target-format allow-list (main.py lines 59-73). -/
def ALLOWED_FORMATS : List String :=
  ["BMP", "GIF", "HEIF", "ICO", "JPEG", "JPG", "PCX", "PNG", "PPM", "SGI",
   "WEBP", "TIF", "TIFF"]

/-- MIME_TYPES from src/test/test_converted_images.py: the canonical MIME
type of each image format token after alias resolution. -/
def MIME_TYPES : String → Option String
  | "BMP" => some "image/bmp"
  | "GIF" => some "image/gif"
  | "HEIF" => some "image/heif"
  | "ICO" => some "image/vnd.microsoft.icon"
  | "JPEG" => some "image/jpeg"
  | "JPG" => some "image/jpeg"
  | "PCX" => some "image/pcx"
  | "PNG" => some "image/png"
  | "PPM" => some "image/x-portable-pixmap"
  | "SGI" => some "image/sgi"
  | "TIF" => some "image/tiff"
  | "TIFF" => some "image/tiff"
  | "WEBP" => some "image/webp"
  | _ => none

/-! ## Endpoints and rate limiting

The two conversion endpoints of main.py.  The decorator
`limiter.limit("5/minute")` on `convert_image` (main.py line 171) is
commented out in the source, so the image endpoint carries no quota;
`convert_document` (line 281) carries 5/minute; the `/test/` endpoint
(line 163) carries 10/minute. -/

inductive Endpoint where
  | convert
  | convertDocument
deriving DecidableEq, Repr

/-- The per-minute request quota attached to each conversion endpoint by a
limiter decorator; none when the decorator is absent (commented out,
main.py line 171). -/
def endpointRateLimit : Endpoint → Option Nat
  | .convert => none
  | .convertDocument => some 5

/-- The quota of the `/test/` endpoint (main.py line 163). -/
def testRateLimit : Nat := 10

/-- The rate-limit window is one minute. -/
def rateLimitWindowSeconds : Nat := 60

/-- Modelled from the spec: the slowapi `Limiter` (an external library whose
code is not in this repository) counts, per client, the requests whose
timestamps fall inside the sliding window ending now. -/
def windowCount (history : List Nat) (now : Nat) : Nat :=
  (history.filter (fun t => decide (t ≤ now) && decide (now < t + rateLimitWindowSeconds))).length

/-- Modelled from the spec: a request is rate limited when the endpoint has a
quota and the client already has at least that many requests inside the
current window. -/
def rateLimited (e : Endpoint) (history : List Nat) (now : Nat) : Bool :=
  match endpointRateLimit e with
  | none => false
  | some quota => decide (quota ≤ windowCount history now)

/-! ## Request pipeline (convert_image, main.py lines 170-277;
convert_document, lines 280-379) -/

/-- The target-format allow-list consulted by each endpoint
(main.py lines 185 and 291). -/
def allowedFormats : Endpoint → List String
  | .convert => ALLOWED_FORMATS
  | .convertDocument => ALLOWED_DOC_FORMATS

/-- The payload-size ceiling consulted by each endpoint
(main.py lines 180 and 286). -/
def maxSize : Endpoint → Nat
  | .convert => MAX_FILE_SIZE
  | .convertDocument => MAX_DOC_FILE_SIZE

/-- The detail string of the 413 response (main.py lines 182 and 288). -/
def tooLargeDetail : Endpoint → String
  | .convert => "File too large"
  | .convertDocument => "Document too large"

/-- The detail string of the 400 response (main.py lines 187 and 293). -/
def invalidFormatDetail : Endpoint → String
  | .convert => "Invalid conversion format"
  | .convertDocument => "Invalid document conversion format"

/-- The detail string of the 504 response (main.py lines 277 and 379). -/
def timeoutDetail : Endpoint → String
  | .convert => "Timeout while converting image"
  | .convertDocument => "Timeout while converting document"

/-- The media type attached to the FileResponse on success
(main.py lines 274 and 376): the raw requested token, lowercased,
under a fixed top-level type. -/
def mediaTypeFor (e : Endpoint) (convertTo : String) : String :=
  match e with
  | .convert => "image/" ++ pyLower convertTo
  | .convertDocument => "application/" ++ pyLower convertTo

/-- One invocation of the wrapped conversion closure, treated as an opaque
capability: how long it runs and what it produces (the output path, or the
detail of the HTTPException(500) it raises). -/
structure DispatchExec where
  duration : Nat
  outcome : Except String String
deriving Repr

/-- asyncio.wait_for: the result when the operation finishes within the
deadline, none (TimeoutError) when its duration exceeds the deadline
(main.py lines 272 and 374). -/
def waitFor (deadline : Nat) (op : DispatchExec) : Option (Except String String) :=
  if op.duration > deadline then none else some op.outcome

/-- The HTTP-level result of one request. -/
inductive HttpResult where
  | file (path : String) (mediaType : String)
  | error (status : Nat) (detail : String)
deriving DecidableEq, Repr

/-- The status code carried by an HttpResult (FileResponse is 200). -/
def statusOf : HttpResult → Nat
  | .file _ _ => 200
  | .error s _ => s

/-- The endpoint body shared by convert_image and convert_document, paired
with the number of dispatch invocations it performed: the limiter runs
first (429), then the size check (413, lines 180-182 and 286-288), then
the format check (400, lines 185-187 and 291-293), then exactly one
dispatch wrapped in asyncio.wait_for under TIMEOUT_IMG (lines 272-277
and 374-379). -/
def handleCounted (e : Endpoint) (history : List Nat) (now : Nat)
    (payloadSize : Nat) (convertTo : String) (op : DispatchExec) :
    HttpResult × Nat :=
  if rateLimited e history now then
    (.error 429 "Rate limit exceeded", 0)
  else if payloadSize > maxSize e then
    (.error 413 (tooLargeDetail e), 0)
  else if !((allowedFormats e).contains (pyUpper convertTo)) then
    (.error 400 (invalidFormatDetail e), 0)
  else
    match waitFor TIMEOUT_IMG op with
    | none => (.error 504 (timeoutDetail e), 1)
    | some (.error d) => (.error 500 d, 1)
    | some (.ok p) => (.file p (mediaTypeFor e convertTo), 1)

/-- The HTTP result of one request. -/
def handle (e : Endpoint) (history : List Nat) (now : Nat)
    (payloadSize : Nat) (convertTo : String) (op : DispatchExec) : HttpResult :=
  (handleCounted e history now payloadSize convertTo op).1

/-! ## os.path primitives

Models of the CPython posixpath functions the endpoints use:
os.path.join, os.path.splitext, and path resolution. -/

/-- os.path.join for two components: an absolute second component replaces
the first; a first component that is empty or ends in a slash is
prepended as is; otherwise the parts are joined with a single slash. -/
def osJoin (a b : String) : String :=
  if b.data.head? = some '/' then b
  else if a.data.getLast? = some '/' ∨ a = "" then a ++ b
  else a ++ "/" ++ b

/-- os.path.splitext on the character list: the extension starts at the last
dot that lies after the last slash, unless every character between that
slash and the dot is itself a dot (leading dots of a basename are not an
extension).  Returns (root, ext). -/
def splitextData (l : List Char) : List Char × List Char :=
  let r := l.reverse
  let extRev := r.takeWhile (fun c => c != '.' && c != '/')
  match r.dropWhile (fun c => c != '.' && c != '/') with
  | [] => (l, [])
  | c :: front =>
    if c = '.' then
      if (front.takeWhile (fun x => x != '/')).all (fun x => x = '.') then (l, [])
      else (front.reverse, '.' :: extRev.reverse)
    else (l, [])

/-- os.path.splitext(s)[0]. -/
def splitextBase (s : String) : String := ⟨(splitextData s.data).1⟩

/-- os.path.splitext(s)[1]. -/
def splitextExt (s : String) : String := ⟨(splitextData s.data).2⟩

/-- input_format = os.path.splitext(file.filename)[1][1:].upper()
(main.py line 311). -/
def inputFormatOfFilename (filename : String) : String :=
  pyUpper ((splitextExt filename).drop 1)

/-! ## Timestamps and artifact naming (main.py lines 215-218, 242-247, 305-308) -/

/-- A Python datetime value, with the sub-second field the strftime format
string does not mention. -/
structure PyDateTime where
  year : Nat
  month : Nat
  day : Nat
  hour : Nat
  minute : Nat
  second : Nat
  microsecond : Nat
deriving DecidableEq, Repr

/-- Decimal rendering with explicit fuel (the fuel is always sufficient,
since a number has at most n + 1 digits). -/
def natDigitsAux : Nat → Nat → List Char
  | 0, _ => []
  | fuel + 1, n =>
    if n < 10 then [Nat.digitChar n]
    else natDigitsAux fuel (n / 10) ++ [Nat.digitChar (n % 10)]

/-- The decimal digits of a natural number, most significant first
(the rendering strftime uses for each field). -/
def natDigits (n : Nat) : List Char := natDigitsAux (n + 1) n

/-- A two-digit zero-padded field (%S, %M, %H, %d, %m). -/
def fmt2 (n : Nat) : String :=
  ⟨if n < 10 then '0' :: natDigits n else natDigits n⟩

/-- datetime.datetime.now().strftime("%S%M%H%d%m%Y") (main.py lines 215,
242 and 305): second, minute, hour, day, month, year — one-second
granularity, the microsecond field is not rendered. -/
def strftimeSMHdmY (t : PyDateTime) : String :=
  fmt2 t.second ++ fmt2 t.minute ++ fmt2 t.hour ++ fmt2 t.day ++ fmt2 t.month
    ++ (⟨natDigits t.year⟩ : String)

/-- new_filename for a document conversion (main.py lines 306-307):
base name, underscore, timestamp, dot, lowercased target token. -/
def docOutputFilename (filename convertTo : String) (t : PyDateTime) : String :=
  splitextBase filename ++ "_" ++ strftimeSMHdmY t ++ "." ++ pyLower convertTo

/-- input_path for a document conversion (main.py line 301). -/
def docInputPath (filename : String) : String := osJoin TEMP_DOC_DIR filename

/-- output_path_doc for a document conversion (main.py line 308). -/
def docOutputPath (filename convertTo : String) (t : PyDateTime) : String :=
  osJoin TEMP_DOC_DIR (docOutputFilename filename convertTo t)

/-- new_filename for an image conversion (main.py lines 243-244 and
216-217), with the already alias-corrected target token. -/
def imageOutputFilename (filename correctedTo : String) (t : PyDateTime) : String :=
  splitextBase filename ++ "_" ++ strftimeSMHdmY t ++ "." ++ pyLower correctedTo

/-- input_path of the HEIF branch (main.py line 202). -/
def imageInputPath (filename : String) : String := osJoin TEMP_IMAGE_DIR filename

/-- out_path for an image conversion (main.py lines 212, 218, 238 and 247:
output_dir is the literal "temp_images/"). -/
def imageOutputPath (filename correctedTo : String) (t : PyDateTime) : String :=
  osJoin "temp_images/" (imageOutputFilename filename correctedTo t)

/-- The alias correction applied before an image save (main.py lines
227-230): JPG becomes JPEG and TIF becomes TIFF, all other tokens are
kept uppercased. -/
def correctImageFormat (convertTo : String) : String :=
  if pyUpper convertTo = "JPG" then "JPEG"
  else if pyUpper convertTo = "TIF" then "TIFF"
  else pyUpper convertTo

/-! ## Path resolution

Where a written path lands once "." and ".." components are resolved,
used to settle whether writes stay inside the temp namespaces. -/

/-- Split a character list at every slash. -/
def splitSlash : List Char → List (List Char)
  | [] => [[]]
  | c :: cs =>
    if c = '/' then [] :: splitSlash cs
    else
      match splitSlash cs with
      | [] => [[c]]
      | h :: t => (c :: h) :: t

/-- Resolve one path component against the stack of components already
resolved: empty and "." components vanish, ".." removes the previous
component (or is kept when the path has already climbed above its
starting directory), anything else is appended. -/
def normStep (acc : List (List Char)) (c : List Char) : List (List Char) :=
  if c = [] ∨ c = ['.'] then acc
  else if c = ['.', '.'] then
    match acc.getLast? with
    | some l => if l = ['.', '.'] then acc ++ [c] else acc.dropLast
    | none => acc ++ [c]
  else acc ++ [c]

/-- The resolved component list of a path. -/
def normComponents (cs : List (List Char)) : List (List Char) :=
  cs.foldl normStep []

/-- A relative path resolves inside directory dir exactly when its resolved
component list starts with dir and names something strictly below it. -/
def resolvesInside (dir : String) (p : String) : Bool :=
  match normComponents (splitSlash p.data) with
  | d :: rest => d == dir.data && !rest.isEmpty
  | [] => false

/-! ## Document dispatch (convert_doc, main.py lines 310-355) -/

/-- What the if/elif chain of convert_doc does for one
(input format, requested target) pair. -/
inductive DocAction where
  /-- One of the explicit conversion branches runs and writes the output. -/
  | convertVia (src tgt : String)
  /-- The target-is-TXT branch was entered but no extractor matched the
  input format: the branch falls through without writing anything and
  without raising. -/
  | noWrite
  /-- The final else branch: ValueError, conversion not supported. -/
  | unsupportedRoute
deriving DecidableEq, Repr

/-- The finite route table the specification names. -/
def docRouteTable : List (String × String) :=
  [("DOCX", "PDF"), ("PDF", "DOCX"), ("ODT", "DOCX"), ("ODT", "PDF"),
   ("ODT", "TXT"), ("PDF", "TXT"), ("DOCX", "TXT"), ("RTF", "TXT")]

/-- The if/elif chain of convert_doc (main.py lines 314-355): inputFormat is
the uppercased filename extension, convertTo the raw requested token
(uppercased at each comparison, as in the source). -/
def docDispatch (inputFormat convertTo : String) : DocAction :=
  let c := pyUpper convertTo
  if inputFormat = "DOCX" && c = "PDF" then .convertVia "DOCX" "PDF"
  else if inputFormat = "PDF" && c = "DOCX" then .convertVia "PDF" "DOCX"
  else if inputFormat = "ODT" && (["DOCX", "PDF", "TXT"] : List String).contains c then
    .convertVia "ODT" c
  else if c = "TXT" then
    if inputFormat = "PDF" then .convertVia "PDF" "TXT"
    else if inputFormat = "DOCX" || inputFormat = "RTF" then .convertVia inputFormat "TXT"
    else .noWrite
  else .unsupportedRoute

/-- What the external converter library left at the output path. -/
inductive ConvEffect where
  /-- The converter returned and a file of this size is at the output path. -/
  | wrote (size : Nat)
  /-- The converter returned but no file is at the output path. -/
  | noFile
  /-- The converter raised, with this message. -/
  | raised (msg : String)
deriving DecidableEq, Repr

/-- Detail of the missing-output exception (main.py lines 359-360). -/
def failedToSaveMsg (p : String) : String :=
  "Failed to save the document. Path does not exist: " ++ p

/-- Detail of the empty-output exception (main.py lines 365-366). -/
def notSavedMsg (p : String) : String :=
  "Document was not saved correctly at: " ++ p

/-- Detail of the ValueError of the unsupported-route branch
(main.py line 355). -/
def unsupportedMsg (inputFormat convertTo : String) : String :=
  "Conversion from " ++ inputFormat ++ " to " ++ convertTo ++ " is not supported."

/-- The body of convert_doc after the input copy (main.py lines 310-371):
dispatch on the format pair, then verify that the freshly named output
path exists with non-zero size; every raised exception is caught and
becomes an HTTPException with status 500 (line 371).  The output path is
fresh, so when no branch writes, nothing exists there. -/
def convertDocResult (inputFormat convertTo outPath : String) (eff : ConvEffect) :
    Except (Nat × String) String :=
  match docDispatch inputFormat convertTo with
  | .unsupportedRoute => .error (500, unsupportedMsg inputFormat convertTo)
  | .noWrite => .error (500, failedToSaveMsg outPath)
  | .convertVia _ _ =>
    match eff with
    | .raised m => .error (500, m)
    | .noFile => .error (500, failedToSaveMsg outPath)
    | .wrote size =>
      if size > 0 then .ok outPath else .error (500, notSavedMsg outPath)

/-- The post-write verification of the image path (main.py lines 256-266):
raise if the output path does not exist, succeed only when it exists
with non-zero size, and return the path. -/
def verifyOutput (pathExists : Bool) (size : Nat) (outPath : String) :
    Except String String :=
  if !pathExists then
    .error ("Failed to save the image. Path does not exist: " ++ outPath)
  else if pathExists && decide (size > 0) then .ok outPath
  else .error ("File was not saved correctly at: " ++ outPath)

/-! ## Periodic cleanup (periodic_cleanup, main.py lines 137-150) -/

/-- One entry of a temp directory as the cleanup loop sees it: its bare
listdir name and its creation time. -/
structure StoredFile where
  name : String
  ctime : Int
deriving DecidableEq, Repr

/-- now - file_creation_time > DELETE_IMG_AFTER_SECONDS (main.py line 144). -/
def expired (now : Int) (f : StoredFile) : Bool :=
  decide (now - f.ctime > DELETE_IMG_AFTER_SECONDS)

/-- One iteration of the cleanup loop over the accumulated
(kept entries, deleted paths, logged failure paths): an expired file is
removed when os.remove succeeds, otherwise the exception is logged and
the loop continues; a non-expired file is left in place
(main.py lines 140-149). -/
def cleanupStep (now : Int) (removeOk : String → Bool)
    (st : List StoredFile × List String × List String) (f : StoredFile) :
    List StoredFile × List String × List String :=
  if expired now f then
    if removeOk f.name then
      (st.1, st.2.1 ++ [osJoin TEMP_IMAGE_DIR f.name], st.2.2)
    else
      (st.1 ++ [f], st.2.1, st.2.2 ++ [osJoin TEMP_IMAGE_DIR f.name])
  else (st.1 ++ [f], st.2.1, st.2.2)

/-- One full cycle of periodic_cleanup over the listing of TEMP_IMAGE_DIR:
returns the surviving entries, the deleted paths, and the logged failure
paths.  The cycle itself never raises: a per-file failure only lands in
the log component (main.py lines 145-149). -/
def cleanupCycle (files : List StoredFile) (now : Int) (removeOk : String → Bool) :
    List StoredFile × List String × List String :=
  files.foldl (cleanupStep now removeOk) ([], [], [])

/-- The two temp directories of the server. -/
structure ServerDirs where
  images : List StoredFile
  documents : List StoredFile
deriving DecidableEq, Repr

/-- One pass of the background task over the server state: it enumerates
and reaps TEMP_IMAGE_DIR only (main.py line 140); no code touches
TEMP_DOC_DIR. -/
def periodicCleanupPass (d : ServerDirs) (now : Int) (removeOk : String → Bool) :
    ServerDirs × List String × List String :=
  let r := cleanupCycle d.images now removeOk
  (⟨r.1, d.documents⟩, r.2.1, r.2.2)

/-! ## Helper lemmas -/

/-- Status of a handled request, written as one nest of conditionals. -/
theorem statusOf_handle_eq (e : Endpoint) (history : List Nat) (now : Nat)
    (size : Nat) (tok : String) (op : DispatchExec) :
    statusOf (handle e history now size tok op) =
      if rateLimited e history now then 429
      else if size > maxSize e then 413
      else if !((allowedFormats e).contains (pyUpper tok)) then 400
      else if op.duration > TIMEOUT_IMG then 504
      else match op.outcome with | .error _ => 500 | .ok _ => 200 := by
  unfold handle handleCounted waitFor
  split_ifs <;> try rfl
  all_goals cases op.outcome <;> rfl

/-- Dispatch-invocation count of a handled request. -/
theorem handleCounted_snd (e : Endpoint) (history : List Nat) (now : Nat)
    (size : Nat) (tok : String) (op : DispatchExec) :
    (handleCounted e history now size tok op).2 =
      if rateLimited e history now then 0
      else if size > maxSize e then 0
      else if !((allowedFormats e).contains (pyUpper tok)) then 0
      else 1 := by
  unfold handleCounted waitFor
  split_ifs <;> try rfl
  all_goals cases op.outcome <;> rfl

/-! ## Claim theorems -/

/-- C1 counterexample: the rate-limit decorator of the image conversion
endpoint is commented out, so the endpoint carries no quota: a client
that already issued 10 requests at the present instant (more than any
quota of 5 to 10 per minute) still gets its next request converted with
status 200 rather than rejected with 429. -/
theorem convert_image_rate_limit_disabled_cex :
    endpointRateLimit .convert = none
    ∧ windowCount (List.replicate 10 0) 0 = 10
    ∧ statusOf (handle .convert (List.replicate 10 0) 0 0 "PNG"
        ⟨0, .ok "temp_images/out.png"⟩) = 200 := by
  refine ⟨rfl, by decide, by decide⟩

/-- C1 (amended): only the document conversion endpoint is rate limited, at
a quota of 5 per minute: a sixth request inside one sliding window is
rejected with 429, and once every earlier request has left the window
the client is admitted again; the image conversion endpoint has its
limiter commented out and admits every request. -/
theorem rate_limit_amended (history : List Nat) (now : Nat) (size : Nat)
    (tok : String) (op : DispatchExec) :
    endpointRateLimit .convert = none
    ∧ endpointRateLimit .convertDocument = some 5
    ∧ (5 ≤ windowCount history now →
        statusOf (handle .convertDocument history now size tok op) = 429)
    ∧ ((∀ t ∈ history, t + rateLimitWindowSeconds ≤ now) →
        statusOf (handle .convertDocument history now size tok op) ≠ 429) := by
  refine ⟨rfl, rfl, ?_, ?_⟩
  · intro hq
    rw [statusOf_handle_eq]
    have hrl : rateLimited .convertDocument history now = true := by
      simp [rateLimited, endpointRateLimit, hq]
    simp [hrl]
  · intro helapsed
    have hcount : windowCount history now = 0 := by
      unfold windowCount
      have : history.filter
          (fun t => decide (t ≤ now) && decide (now < t + rateLimitWindowSeconds)) = [] := by
        apply List.filter_eq_nil_iff.mpr
        intro t ht
        have := helapsed t ht
        simp only [Bool.and_eq_true, decide_eq_true_eq]
        omega
      simp [this]
    have hrl : rateLimited .convertDocument history now = false := by
      simp [rateLimited, endpointRateLimit, hcount]
    rw [statusOf_handle_eq, hrl]
    simp only [Bool.false_eq_true, if_false]
    by_cases h2 : size > maxSize Endpoint.convertDocument
    · simp [h2]
    · rw [if_neg h2]
      by_cases h3 : (!((allowedFormats Endpoint.convertDocument).contains (pyUpper tok))) = true
      · rw [if_pos h3]
        omega
      · rw [if_neg h3]
        by_cases h4 : op.duration > TIMEOUT_IMG
        · simp [h4]
        · rw [if_neg h4]
          cases op.outcome <;> simp

/-- C1 witness: five requests at instant 0 fill the document quota, so a
sixth at the same instant is rejected with 429; one request at instant 0
is outside the window at instant 60, so the client is admitted again. -/
theorem rate_limit_amended_witness :
    statusOf (handle .convertDocument (List.replicate 5 0) 0 0 "PDF"
      ⟨0, .ok "p"⟩) = 429
    ∧ statusOf (handle .convertDocument [0] 60 0 "PDF" ⟨0, .ok "p"⟩) ≠ 429 :=
  ⟨(rate_limit_amended (List.replicate 5 0) 0 0 "PDF" ⟨0, .ok "p"⟩).2.2.1 (by decide),
   (rate_limit_amended [0] 60 0 "PDF" ⟨0, .ok "p"⟩).2.2.2 (by decide)⟩

/-- C2: on either endpoint, once the request is not rate limited, the
response status is 413 exactly when the payload size exceeds the 10 MiB
ceiling, and the document endpoint applies its own ceiling equal to the
image one. -/
theorem payload_ceiling_413 (e : Endpoint) (history : List Nat) (now : Nat)
    (size : Nat) (tok : String) (op : DispatchExec)
    (h : rateLimited e history now = false) :
    (statusOf (handle e history now size tok op) = 413 ↔ size > MAX_FILE_SIZE)
    ∧ maxSize .convert = MAX_FILE_SIZE
    ∧ maxSize .convertDocument = MAX_DOC_FILE_SIZE
    ∧ MAX_DOC_FILE_SIZE = MAX_FILE_SIZE
    ∧ MAX_FILE_SIZE = 10 * 1024 * 1024 := by
  refine ⟨?_, rfl, rfl, rfl, rfl⟩
  have hmax : maxSize e = MAX_FILE_SIZE := by cases e <;> rfl
  rw [statusOf_handle_eq, h, hmax]
  simp only [Bool.false_eq_true, if_false]
  by_cases hgt : size > MAX_FILE_SIZE
  · simp [hgt]
  · rw [if_neg hgt]
    constructor
    · intro h413
      exfalso
      by_cases h3 : (!((allowedFormats e).contains (pyUpper tok))) = true
      · rw [if_pos h3] at h413; omega
      · rw [if_neg h3] at h413
        by_cases h4 : op.duration > TIMEOUT_IMG
        · rw [if_pos h4] at h413; omega
        · rw [if_neg h4] at h413
          cases hout : op.outcome <;> rw [hout] at h413 <;> simp at h413
    · intro hgt2
      exact absurd hgt2 hgt

/-- C2 witness: a payload of exactly MAX_FILE_SIZE + 1 bytes is rejected
with 413 and one of exactly MAX_FILE_SIZE bytes is not. -/
theorem payload_ceiling_413_witness :
    statusOf (handle .convertDocument [] 0 (MAX_FILE_SIZE + 1) "PDF"
      ⟨0, .ok "p"⟩) = 413
    ∧ statusOf (handle .convertDocument [] 0 MAX_FILE_SIZE "PDF"
      ⟨0, .ok "p"⟩) ≠ 413 := by
  constructor
  · exact (payload_ceiling_413 .convertDocument [] 0 (MAX_FILE_SIZE + 1) "PDF"
      ⟨0, .ok "p"⟩ (by decide)).1.mpr (by omega)
  · intro h
    exact absurd ((payload_ceiling_413 .convertDocument [] 0 MAX_FILE_SIZE "PDF"
      ⟨0, .ok "p"⟩ (by decide)).1.mp h) (by omega)

/-- C3: each request wraps at most one dispatch invocation, exactly one
once admission passes, under the single fixed deadline TIMEOUT_IMG = 10
seconds on both endpoints; the response status is 504 exactly when that
one dispatch was invoked and overran the deadline, so no other outcome
maps to 504. -/
theorem timeout_guard_504 (e : Endpoint) (history : List Nat) (now : Nat)
    (size : Nat) (tok : String) (op : DispatchExec) :
    TIMEOUT_IMG = 10
    ∧ (handleCounted e history now size tok op).2 ≤ 1
    ∧ (statusOf (handle e history now size tok op) = 504 ↔
        (handleCounted e history now size tok op).2 = 1
          ∧ op.duration > TIMEOUT_IMG) := by
  refine ⟨rfl, ?_, ?_⟩
  · rw [handleCounted_snd]
    split_ifs <;> omega
  · rw [statusOf_handle_eq, handleCounted_snd]
    by_cases h1 : rateLimited e history now = true
    · simp [h1]
    · rw [if_neg h1, if_neg h1]
      by_cases h2 : size > maxSize e
      · simp [h2]
      · rw [if_neg h2, if_neg h2]
        by_cases h3 : (!((allowedFormats e).contains (pyUpper tok))) = true
        · rw [if_pos h3, if_pos h3]
          have hmem : ¬ pyUpper tok ∈ allowedFormats e := by simpa using h3
          simp [hmem]
        · rw [if_neg h3, if_neg h3]
          by_cases h4 : op.duration > TIMEOUT_IMG
          · simp [h4]
          · rw [if_neg h4]
            cases op.outcome <;> simp [h4]

/-- convert_doc runs a conversion branch exactly for the table pairs. -/
theorem docDispatch_convertVia_iff (src convertTo : String) :
    (∃ s t, docDispatch src convertTo = .convertVia s t) ↔
      (src, pyUpper convertTo) ∈ docRouteTable := by
  unfold docDispatch
  generalize pyUpper convertTo = c
  by_cases h1 : src = "DOCX" <;> by_cases h2 : c = "PDF" <;>
  by_cases h3 : src = "PDF" <;> by_cases h4 : c = "DOCX" <;>
  by_cases h5 : src = "ODT" <;> by_cases h6 : c = "TXT" <;>
  by_cases h7 : src = "RTF" <;>
  simp_all [docRouteTable]

/-- The silent fall-through of the TXT branch happens exactly when the
target is TXT and the source extension matches no extractor. -/
theorem docDispatch_noWrite_iff (src convertTo : String) :
    docDispatch src convertTo = .noWrite ↔
      (pyUpper convertTo = "TXT" ∧ src ≠ "PDF" ∧ src ≠ "DOCX"
        ∧ src ≠ "RTF" ∧ src ≠ "ODT") := by
  unfold docDispatch
  generalize pyUpper convertTo = c
  by_cases h1 : src = "DOCX" <;> by_cases h2 : c = "PDF" <;>
  by_cases h3 : src = "PDF" <;> by_cases h4 : c = "DOCX" <;>
  by_cases h5 : src = "ODT" <;> by_cases h6 : c = "TXT" <;>
  by_cases h7 : src = "RTF" <;>
  simp_all [docRouteTable]

/-- C4 counterexample: for a declared filename notes.txt the source format
is TXT; the pair (TXT, TXT) is absent from the route table and no
conversion is attempted, yet the error raised is the write-verification
failure of the fallen-through TXT branch, not the unsupported-route
ValueError the claim names. -/
theorem doc_route_txt_fallthrough_cex :
    inputFormatOfFilename "notes.txt" = "TXT"
    ∧ ("TXT", pyUpper "TXT") ∉ docRouteTable
    ∧ docDispatch "TXT" "TXT" = .noWrite
    ∧ convertDocResult "TXT" "TXT" "temp_documents/notes_34392226062024.txt" .noFile
        = .error (500, failedToSaveMsg "temp_documents/notes_34392226062024.txt")
    ∧ failedToSaveMsg "temp_documents/notes_34392226062024.txt"
        ≠ unsupportedMsg "TXT" "TXT" := by
  refine ⟨by decide, by decide, by decide, rfl, by decide⟩

/-- C4 (amended): convert_doc attempts a conversion exactly when the
(source format, uppercased target) pair is in the finite route table; a
pair absent from the table always ends in a status-500 ConversionError
with no fallback attempt, but the error is the unsupported-route
ValueError only outside the TXT fall-through: when the target is TXT
and the source is none of PDF, DOCX, RTF or ODT, the branch writes
nothing and the post-write verification failure is raised instead. -/
theorem doc_route_table_amended (src convertTo outPath : String) (eff : ConvEffect) :
    ((∃ s t, docDispatch src convertTo = .convertVia s t) ↔
      (src, pyUpper convertTo) ∈ docRouteTable)
    ∧ ((src, pyUpper convertTo) ∉ docRouteTable →
        ∃ d, convertDocResult src convertTo outPath eff = .error (500, d))
    ∧ (docDispatch src convertTo = .noWrite ↔
        (pyUpper convertTo = "TXT" ∧ src ≠ "PDF" ∧ src ≠ "DOCX"
          ∧ src ≠ "RTF" ∧ src ≠ "ODT")) := by
  refine ⟨docDispatch_convertVia_iff src convertTo, ?_,
    docDispatch_noWrite_iff src convertTo⟩
  intro habs
  cases hd : docDispatch src convertTo with
  | convertVia s t =>
    exact absurd ((docDispatch_convertVia_iff src convertTo).mp ⟨s, t, hd⟩) habs
  | noWrite =>
    exact ⟨failedToSaveMsg outPath, by unfold convertDocResult; rw [hd]⟩
  | unsupportedRoute =>
    exact ⟨unsupportedMsg src convertTo, by unfold convertDocResult; rw [hd]⟩

/-- C4 witness: an ODT to RTF request is off the table and yields a 500
error; a DOCX to PDF request is on the table and is attempted. -/
theorem doc_route_table_amended_witness :
    (∃ d, convertDocResult "ODT" "rtf" "p" .noFile = .error (500, d))
    ∧ ("DOCX", pyUpper "pdf") ∈ docRouteTable :=
  ⟨(doc_route_table_amended "ODT" "rtf" "p" .noFile).2.1 (by decide),
   (doc_route_table_amended "DOCX" "pdf" "p" .noFile).1.mp ⟨"DOCX", "PDF", by decide⟩⟩

/-- convert_doc either returns the output path or a status-500 error. -/
theorem convertDocResult_cases (src c p : String) (eff : ConvEffect) :
    convertDocResult src c p eff = .ok p
    ∨ ∃ d, convertDocResult src c p eff = .error (500, d) := by
  unfold convertDocResult
  cases docDispatch src c with
  | convertVia s t =>
    cases eff with
    | wrote sz => by_cases hsz : sz > 0 <;> simp [hsz]
    | noFile => exact Or.inr ⟨_, rfl⟩
    | raised m => exact Or.inr ⟨_, rfl⟩
  | noWrite => exact Or.inr ⟨_, rfl⟩
  | unsupportedRoute => exact Or.inr ⟨_, rfl⟩

/-- C5: on both endpoints a success is declared only when the output file
exists with non-zero size after the write: the image-path verification
succeeds exactly on an existing non-empty file and otherwise raises, and
convert_doc returns a path exactly when a table route ran and left a
non-empty file, every other case being an error carrying status 500. -/
theorem write_verification_500 :
    (∀ (ex : Bool) (sz : Nat) (p : String),
       (∃ q, verifyOutput ex sz p = .ok q) ↔ (ex = true ∧ 0 < sz))
    ∧ (∀ (ex : Bool) (sz : Nat) (p : String), ¬(ex = true ∧ 0 < sz) →
        ∃ d, verifyOutput ex sz p = .error d)
    ∧ (∀ (src c p : String) (eff : ConvEffect),
       (∃ q, convertDocResult src c p eff = .ok q) ↔
         ((∃ s t, docDispatch src c = .convertVia s t)
           ∧ ∃ sz, eff = .wrote sz ∧ 0 < sz))
    ∧ (∀ (src c p : String) (eff : ConvEffect),
        (¬∃ q, convertDocResult src c p eff = .ok q) →
        ∃ d, convertDocResult src c p eff = .error (500, d)) := by
  refine ⟨?_, ?_, ?_, ?_⟩
  · intro ex sz p
    cases ex <;> by_cases hsz : 0 < sz <;> simp [verifyOutput, hsz]
  · intro ex sz p hno
    cases ex <;> by_cases hsz : 0 < sz <;> simp_all [verifyOutput]
  · intro src c p eff
    unfold convertDocResult
    cases hd : docDispatch src c with
    | convertVia s t =>
      cases eff with
      | wrote sz => by_cases hsz : sz > 0 <;> simp [hsz, hd]
      | noFile => simp [hd]
      | raised m => simp [hd]
    | noWrite => simp [hd]
    | unsupportedRoute => simp [hd]
  · intro src c p eff hno
    rcases convertDocResult_cases src c p eff with hok | herr
    · exact absurd ⟨p, hok⟩ hno
    · exact herr

/-- C5 witness: an existing 5-byte output verifies and a zero-byte output
raises; a DOCX to PDF conversion that wrote 3 bytes succeeds, one that
left a zero-byte file is a 500 error. -/
theorem write_verification_500_witness :
    (∃ q, verifyOutput true 5 "p" = .ok q)
    ∧ (∃ d, verifyOutput true 0 "p" = .error d)
    ∧ (∃ q, convertDocResult "DOCX" "PDF" "p" (.wrote 3) = .ok q)
    ∧ (∃ d, convertDocResult "DOCX" "PDF" "p" (.wrote 0) = .error (500, d)) :=
  ⟨(write_verification_500.1 true 5 "p").mpr (by decide),
   write_verification_500.2.1 true 0 "p" (by decide),
   (write_verification_500.2.2.1 "DOCX" "PDF" "p" (.wrote 3)).mpr
     ⟨⟨"DOCX", "PDF", by decide⟩, 3, rfl, by decide⟩,
   write_verification_500.2.2.2 "DOCX" "PDF" "p" (.wrote 0)
     (by
       intro hq
       rcases (write_verification_500.2.2.1 "DOCX" "PDF" "p" (.wrote 0)).mp hq
         with ⟨_, _, heq, hpos⟩
       cases heq
       omega)⟩

/-- C8 counterexample: a successful image conversion requested with the
alias token JPG is served with Content-Type image/jpg, the lowercased
raw token, while the canonical MIME type of the resolved format is
image/jpeg; no alias resolution reaches the response header. -/
theorem content_type_not_canonical_cex :
    handle .convert [] 0 0 "JPG" ⟨0, .ok "p"⟩ = .file "p" "image/jpg"
    ∧ MIME_TYPES "JPG" = some "image/jpeg"
    ∧ mediaTypeFor .convert "JPG" ≠ "image/jpeg" := by
  refine ⟨by decide, rfl, by decide⟩

/-- C8 (amended): the response Content-Type is the literal string image/
(or application/ for documents) followed by the lowercased raw request
token, with no alias or MIME resolution; over the image allow-list that
literal equals the canonical MIME type exactly for the tokens that are
not aliases and have plain subtype names, and differs for JPG, TIF, ICO
and PPM. -/
theorem content_type_amended :
    (∀ tok : String,
       mediaTypeFor .convert tok = "image/" ++ pyLower tok
       ∧ mediaTypeFor .convertDocument tok = "application/" ++ pyLower tok)
    ∧ (∀ tok ∈ ALLOWED_FORMATS,
        (MIME_TYPES tok = some (mediaTypeFor .convert tok)) ↔
          tok ∉ (["JPG", "TIF", "ICO", "PPM"] : List String)) := by
  exact ⟨fun tok => ⟨rfl, rfl⟩, by decide⟩

/-- C8 witness: PNG keeps its canonical MIME type, JPG does not. -/
theorem content_type_amended_witness :
    MIME_TYPES "PNG" = some (mediaTypeFor .convert "PNG")
    ∧ MIME_TYPES "JPG" ≠ some (mediaTypeFor .convert "JPG") := by
  constructor
  · exact (content_type_amended.2 "PNG" (by decide)).mpr (by decide)
  · intro h
    exact absurd ((content_type_amended.2 "JPG" (by decide)).mp h) (by decide)

/-- Closed form of one cleanup cycle starting from any accumulator. -/
theorem cleanupCycle_foldl (now : Int) (rOk : String → Bool)
    (files : List StoredFile) :
    ∀ acc : List StoredFile × List String × List String,
      files.foldl (cleanupStep now rOk) acc =
        (acc.1 ++ files.filter (fun f => !(expired now f && rOk f.name)),
         acc.2.1 ++ (files.filter (fun f => expired now f && rOk f.name)).map
           (fun f => osJoin TEMP_IMAGE_DIR f.name),
         acc.2.2 ++ (files.filter (fun f => expired now f && !rOk f.name)).map
           (fun f => osJoin TEMP_IMAGE_DIR f.name)) := by
  induction files with
  | nil => intro acc; simp
  | cons f fs ih =>
    intro acc
    rw [List.foldl_cons, ih]
    unfold cleanupStep
    by_cases he : expired now f
    · by_cases hr : rOk f.name
      · simp [he, hr]
      · simp [he, hr]
    · simp [he]

/-- Closed form of one cleanup cycle. -/
theorem cleanupCycle_eq (files : List StoredFile) (now : Int)
    (rOk : String → Bool) :
    cleanupCycle files now rOk =
      (files.filter (fun f => !(expired now f && rOk f.name)),
       (files.filter (fun f => expired now f && rOk f.name)).map
         (fun f => osJoin TEMP_IMAGE_DIR f.name),
       (files.filter (fun f => expired now f && !rOk f.name)).map
         (fun f => osJoin TEMP_IMAGE_DIR f.name)) := by
  rw [cleanupCycle, cleanupCycle_foldl]
  simp

/-- C9: with the retention window fixed at 3600 seconds, a cycle whose
removals all succeed deletes exactly the enumerated files strictly older
than the window and logs no failure; in general a file is deleted
exactly when it is expired and its own removal succeeds, a failed
removal of one expired file is logged without affecting the rest of the
cycle, and a second cycle run immediately after a fully successful one
finds only unexpired files, deletes nothing and logs no error. -/
theorem periodic_cleanup_behavior (files : List StoredFile) (now : Int)
    (rOk rOk2 : String → Bool) :
    DELETE_IMG_AFTER_SECONDS = 3600
    ∧ (cleanupCycle files now (fun _ => true)).2.1 =
        (files.filter (fun f => expired now f)).map
          (fun f => osJoin TEMP_IMAGE_DIR f.name)
    ∧ (cleanupCycle files now (fun _ => true)).2.2 = []
    ∧ (cleanupCycle files now rOk).2.1 =
        (files.filter (fun f => expired now f && rOk f.name)).map
          (fun f => osJoin TEMP_IMAGE_DIR f.name)
    ∧ (cleanupCycle files now rOk).2.2 =
        (files.filter (fun f => expired now f && !rOk f.name)).map
          (fun f => osJoin TEMP_IMAGE_DIR f.name)
    ∧ cleanupCycle ((cleanupCycle files now (fun _ => true)).1) now rOk2 =
        ((cleanupCycle files now (fun _ => true)).1, [], []) := by
  refine ⟨rfl, by simp [cleanupCycle_eq], by simp [cleanupCycle_eq],
    by simp [cleanupCycle_eq], by simp [cleanupCycle_eq], ?_⟩
  rw [cleanupCycle_eq, cleanupCycle_eq]
  have hmem : ∀ f ∈ files.filter (fun f => !(expired now f && true)),
      expired now f = false := by
    intro f hf
    have := (List.mem_filter.mp hf).2
    simpa using this
  refine Prod.ext ?_ (Prod.ext ?_ ?_) <;> simp only
  · rw [List.filter_eq_self.mpr]
    intro f hf
    simp [hmem f hf]
  · rw [List.filter_eq_nil_iff.mpr, List.map_nil]
    intro f hf
    simp [hmem f hf]
  · rw [List.filter_eq_nil_iff.mpr, List.map_nil]
    intro f hf
    simp [hmem f hf]

/-- C10: one pass of the background cleanup task leaves the document temp
directory untouched whatever the time and the outcome of removals, and
every path it deletes is the join of TEMP_IMAGE_DIR with the name of an
enumerated image-directory entry; when those names are slash-free bare
listdir names, every deleted path starts with the literal prefix
temp_images/. -/
theorem cleanup_frame (d : ServerDirs) (now : Int) (rOk : String → Bool) :
    (periodicCleanupPass d now rOk).1.documents = d.documents
    ∧ (∀ p ∈ (periodicCleanupPass d now rOk).2.1,
        ∃ f ∈ d.images, p = osJoin TEMP_IMAGE_DIR f.name)
    ∧ ((∀ f ∈ d.images, ('/' : Char) ∉ f.name.data) →
        ∀ p ∈ (periodicCleanupPass d now rOk).2.1,
          ∃ rest, p.data = ("temp_images/" : String).data ++ rest) := by
  refine ⟨rfl, ?_, ?_⟩
  · intro p hp
    simp only [periodicCleanupPass, cleanupCycle_eq] at hp
    rcases List.mem_map.mp hp with ⟨f, hf, hpf⟩
    exact ⟨f, (List.mem_filter.mp hf).1, hpf.symm⟩
  · intro hnoslash p hp
    simp only [periodicCleanupPass, cleanupCycle_eq] at hp
    rcases List.mem_map.mp hp with ⟨f, hf, hpf⟩
    have hb := hnoslash f (List.mem_filter.mp hf).1
    refine ⟨f.name.data, ?_⟩
    rw [← hpf]
    have hh : f.name.data.head? ≠ some '/' := by
      cases hd : f.name.data with
      | nil => simp
      | cons c cs =>
        intro hc
        have hc2 : c = '/' := by
          have hc3 : (c :: cs).head? = some '/' := hc
          simpa using hc3
        subst hc2
        exact hb (by rw [hd]; exact List.mem_cons_self _ _)
    unfold osJoin
    rw [if_neg hh, if_neg (by decide)]
    simp [String.data_append, TEMP_IMAGE_DIR]

/-- C10 witness: a pass over a server state holding one expired image and
one expired document deletes only the image path and keeps the document
listing intact. -/
theorem cleanup_frame_witness :
    (periodicCleanupPass ⟨[⟨"a.png", 0⟩], [⟨"b.pdf", 0⟩]⟩ 4000
      (fun _ => true)).1.documents = [⟨"b.pdf", 0⟩]
    ∧ ∃ rest, ("temp_images/a.png" : String).data =
        ("temp_images/" : String).data ++ rest := by
  constructor
  · exact (cleanup_frame ⟨[⟨"a.png", 0⟩], [⟨"b.pdf", 0⟩]⟩ 4000 (fun _ => true)).1
  · exact (cleanup_frame ⟨[⟨"a.png", 0⟩], [⟨"b.pdf", 0⟩]⟩ 4000
      (fun _ => true)).2.2 (by decide) "temp_images/a.png" (by decide)

/-- Appending the same string on the left is cancellative. -/
theorem string_append_cancel_left (a b c : String) (h : a ++ b = a ++ c) :
    b = c := by
  apply String.ext
  have hd := congrArg String.data h
  rw [String.data_append, String.data_append] at hd
  exact List.append_cancel_left hd

/-- os.path.join with a fixed first component is injective in the second
component as long as both second components agree on whether they are
absolute. -/
theorem osJoin_cancel (a b1 b2 : String)
    (hh : b1.data.head? = b2.data.head?) :
    osJoin a b1 = osJoin a b2 ↔ b1 = b2 := by
  constructor
  · intro h
    unfold osJoin at h
    by_cases hb : b1.data.head? = some '/'
    · have hb2 : b2.data.head? = some '/' := by rw [← hh]; exact hb
      rw [if_pos hb, if_pos hb2] at h
      exact h
    · have hb2 : ¬ b2.data.head? = some '/' := by rw [← hh]; exact hb
      rw [if_neg hb, if_neg hb2] at h
      by_cases ha : a.data.getLast? = some '/' ∨ a = ""
      · rw [if_pos ha, if_pos ha] at h
        exact string_append_cancel_left _ _ _ h
      · rw [if_neg ha, if_neg ha] at h
        exact string_append_cancel_left _ _ _ h
  · intro h
    rw [h]

/-- Character data of a base_timestamp.ext artifact name. -/
theorem nameData (b ts lo : String) :
    (b ++ "_" ++ ts ++ "." ++ lo).data =
      b.data ++ '_' :: (ts.data ++ '.' :: lo.data) := by
  simp [String.data_append]

/-- The head character of an artifact name does not depend on the
timestamp. -/
theorem nameData_head (b ts1 ts2 lo : String) :
    (b ++ "_" ++ ts1 ++ "." ++ lo).data.head? =
      (b ++ "_" ++ ts2 ++ "." ++ lo).data.head? := by
  rw [nameData, nameData]
  cases hb : b.data <;> simp

/-- C6 counterexample: two distinct instants of the same wall-clock second
(they differ in the microsecond field the format string does not render)
produce the same document output path and the same image output path for
the same declared filename, because the timestamp in the name has only
one-second granularity. -/
theorem artifact_path_collision_cex :
    (⟨2024, 6, 26, 22, 39, 34, 0⟩ : PyDateTime)
      ≠ ⟨2024, 6, 26, 22, 39, 34, 500000⟩
    ∧ docOutputPath "report.docx" "PDF" ⟨2024, 6, 26, 22, 39, 34, 0⟩
        = docOutputPath "report.docx" "PDF" ⟨2024, 6, 26, 22, 39, 34, 500000⟩
    ∧ docOutputPath "report.docx" "PDF" ⟨2024, 6, 26, 22, 39, 34, 0⟩
        = "temp_documents/report_34392226062024.pdf"
    ∧ imageOutputPath "photo.png" "JPEG" ⟨2024, 6, 26, 22, 39, 34, 0⟩
        = imageOutputPath "photo.png" "JPEG" ⟨2024, 6, 26, 22, 39, 34, 500000⟩ := by
  refine ⟨by decide, by decide, by decide, by decide⟩

/-- C6 (amended): for a fixed declared filename and target token, two
conversions produce the same artifact path exactly when their formatted
timestamps agree; the format %S%M%H%d%m%Y has one-second granularity, so
two concurrent requests inside the same wall-clock second collide, and
requests whose formatted timestamps differ get distinct paths. -/
theorem artifact_path_unique_iff (filename convertTo : String)
    (t1 t2 : PyDateTime) :
    (docOutputPath filename convertTo t1 = docOutputPath filename convertTo t2
      ↔ strftimeSMHdmY t1 = strftimeSMHdmY t2)
    ∧ (imageOutputPath filename convertTo t1
        = imageOutputPath filename convertTo t2
      ↔ strftimeSMHdmY t1 = strftimeSMHdmY t2) := by
  constructor
  · unfold docOutputPath docOutputFilename
    rw [osJoin_cancel _ _ _ (nameData_head _ _ _ _)]
    constructor
    · intro h
      have hd := congrArg String.data h
      rw [nameData, nameData] at hd
      have h2 := List.append_cancel_left hd
      injection h2 with _ h3
      exact String.ext (List.append_cancel_right h3)
    · intro h
      rw [h]
  · unfold imageOutputPath imageOutputFilename
    rw [osJoin_cancel _ _ _ (nameData_head _ _ _ _)]
    constructor
    · intro h
      have hd := congrArg String.data h
      rw [nameData, nameData] at hd
      have h2 := List.append_cancel_left hd
      injection h2 with _ h3
      exact String.ext (List.append_cancel_right h3)
    · intro h
      rw [h]

/-- Splitting a slash-free character list yields one component. -/
theorem splitSlash_no_slash (l : List Char) (h : ('/' : Char) ∉ l) :
    splitSlash l = [l] := by
  induction l with
  | nil => rfl
  | cons c cs ih =>
    unfold splitSlash
    rw [if_neg (fun hc => h (List.mem_cons.mpr (Or.inl hc.symm)))]
    rw [ih (fun hm => h (List.mem_cons_of_mem _ hm))]

/-- Splitting at the single slash between two parts. -/
theorem splitSlash_append (a b : List Char) (ha : ('/' : Char) ∉ a) :
    splitSlash (a ++ '/' :: b) = a :: splitSlash b := by
  induction a with
  | nil => simp [splitSlash]
  | cons c cs ih =>
    rw [List.cons_append]
    simp only [splitSlash]
    rw [if_neg (fun hc => ha (List.mem_cons.mpr (Or.inl hc.symm)))]
    rw [ih (fun hm => ha (List.mem_cons_of_mem _ hm))]

/-- Resolving a two-component relative path with ordinary components keeps
both components. -/
theorem normComponents_pair (d b : List Char)
    (hd1 : ¬(d = [] ∨ d = ['.'])) (hd2 : d ≠ ['.', '.'])
    (hb1 : ¬(b = [] ∨ b = ['.'])) (hb2 : b ≠ ['.', '.']) :
    normComponents [d, b] = [d, b] := by
  unfold normComponents
  simp only [List.foldl_cons, List.foldl_nil]
  unfold normStep
  rw [if_neg hd1, if_neg hd2]
  simp only [List.nil_append]
  rw [if_neg hb1, if_neg hb2]
  rfl

/-- Every character of the root part of splitext comes from the input. -/
theorem splitextData_fst_subset (l : List Char) :
    ∀ c ∈ (splitextData l).1, c ∈ l := by
  intro c hc
  unfold splitextData at hc
  simp only at hc
  cases hrest : l.reverse.dropWhile (fun c => c != '.' && c != '/') with
  | nil =>
    rw [hrest] at hc
    exact hc
  | cons x front =>
    rw [hrest] at hc
    dsimp only at hc
    by_cases hx : x = '.'
    · rw [if_pos hx] at hc
      by_cases hall : (front.takeWhile (fun y => y != '/')).all (fun y => y = '.')
      · rw [if_pos hall] at hc
        exact hc
      · rw [if_neg hall] at hc
        have h1 : c ∈ front := List.mem_reverse.mp hc
        have h2 : c ∈ x :: front := List.mem_cons_of_mem _ h1
        have h3 : (x :: front).Sublist l.reverse := by
          rw [← hrest]
          exact List.dropWhile_sublist _
        exact List.mem_reverse.mp (h3.mem h2)
    · rw [if_neg hx] at hc
      exact hc

/-- The head of a slash-free string is not a slash. -/
theorem head_ne_slash (l : List Char) (h : ('/' : Char) ∉ l) :
    l.head? ≠ some '/' := by
  cases hd : l with
  | nil => simp
  | cons c cs =>
    intro hc
    have hc2 : c = '/' := by
      have hc3 : (c :: cs).head? = some '/' := hc
      simpa using hc3
    subst hc2
    exact h (hd ▸ List.mem_cons_self _ _)

/-- The last character of a slash-free string is not a slash. -/
theorem getLast_ne_slash (l : List Char) (h : ('/' : Char) ∉ l) :
    l.getLast? ≠ some '/' := by
  intro hg
  exact h (List.mem_of_mem_getLast? hg)

/-- A valid small code point round-trips through Char.ofNat. -/
theorem char_toNat_ofNat (m : Nat) (hm : m < 55296) :
    (Char.ofNat m).toNat = m := by
  unfold Char.ofNat
  rw [dif_pos (Or.inl hm)]
  rfl

/-- Char.toLower maps no character other than the slash to the slash. -/
theorem toLower_ne_slash (c : Char) (h : c ≠ '/') : c.toLower ≠ '/' := by
  unfold Char.toLower
  dsimp only
  split_ifs with hr
  · intro hx
    have h1 := congrArg Char.toNat hx
    rw [char_toNat_ofNat _ (by omega)] at h1
    have h2 : ('/' : Char).toNat = 47 := rfl
    omega
  · exact h

/-- Char.toUpper maps no character other than the slash to the slash. -/
theorem toUpper_ne_slash (c : Char) (h : c ≠ '/') : c.toUpper ≠ '/' := by
  unfold Char.toUpper
  dsimp only
  split_ifs with hr
  · intro hx
    have h1 := congrArg Char.toNat hx
    rw [char_toNat_ofNat _ (by omega)] at h1
    have h2 : ('/' : Char).toNat = 47 := rfl
    omega
  · exact h

/-- Lowercasing preserves freedom from slashes. -/
theorem pyLower_no_slash (s : String) (h : ('/' : Char) ∉ s.data) :
    ('/' : Char) ∉ (pyLower s).data := by
  intro hm
  rcases List.mem_map.mp hm with ⟨x, hx, hxe⟩
  exact toLower_ne_slash x (fun hxeq => h (hxeq ▸ hx)) hxe

/-- Uppercasing preserves freedom from slashes. -/
theorem pyUpper_no_slash (s : String) (h : ('/' : Char) ∉ s.data) :
    ('/' : Char) ∉ (pyUpper s).data := by
  intro hm
  rcases List.mem_map.mp hm with ⟨x, hx, hxe⟩
  exact toUpper_ne_slash x (fun hxeq => h (hxeq ▸ hx)) hxe

/-- The alias correction preserves freedom from slashes. -/
theorem correctImageFormat_no_slash (s : String) (h : ('/' : Char) ∉ s.data) :
    ('/' : Char) ∉ (correctImageFormat s).data := by
  unfold correctImageFormat
  split_ifs
  · decide
  · decide
  · exact pyUpper_no_slash s h

/-- Every digit character is an actual digit. -/
theorem natDigitsAux_digit (fuel : Nat) :
    ∀ n c, c ∈ natDigitsAux fuel n → ∃ k, k < 10 ∧ c = Nat.digitChar k := by
  induction fuel with
  | zero => intro n c h; simp [natDigitsAux] at h
  | succ fuel ih =>
    intro n c h
    unfold natDigitsAux at h
    by_cases hn : n < 10
    · rw [if_pos hn] at h
      simp at h
      exact ⟨n, hn, h⟩
    · rw [if_neg hn] at h
      rcases List.mem_append.mp h with h1 | h2
      · exact ih _ _ h1
      · simp at h2
        exact ⟨n % 10, Nat.mod_lt _ (by omega), h2⟩

/-- Decimal renderings contain no slash. -/
theorem natDigits_no_slash (n : Nat) : ('/' : Char) ∉ natDigits n := by
  intro h
  rcases natDigitsAux_digit _ _ _ h with ⟨k, hk, he⟩
  have hd : ∀ k < 10, ('/' : Char) ≠ Nat.digitChar k := by decide
  exact hd k hk he

/-- Two-digit fields contain no slash. -/
theorem fmt2_no_slash (n : Nat) : ('/' : Char) ∉ (fmt2 n).data := by
  unfold fmt2
  by_cases h : n < 10
  · rw [if_pos h]
    intro hm
    rcases List.mem_cons.mp hm with h1 | h2
    · exact absurd h1 (by decide)
    · exact natDigits_no_slash n h2
  · rw [if_neg h]
    exact natDigits_no_slash n

/-- Formatted timestamps contain no slash. -/
theorem strftime_no_slash (t : PyDateTime) :
    ('/' : Char) ∉ (strftimeSMHdmY t).data := by
  unfold strftimeSMHdmY
  simp only [String.data_append]
  intro hm
  rcases List.mem_append.mp hm with hm | hm
  · rcases List.mem_append.mp hm with hm | hm
    · rcases List.mem_append.mp hm with hm | hm
      · rcases List.mem_append.mp hm with hm | hm
        · rcases List.mem_append.mp hm with hm | hm
          · exact fmt2_no_slash _ hm
          · exact fmt2_no_slash _ hm
        · exact fmt2_no_slash _ hm
      · exact fmt2_no_slash _ hm
    · exact fmt2_no_slash _ hm
  · exact natDigits_no_slash _ hm


/-- Joining a plain directory with a slash-free name concatenates with one
slash. -/
theorem osJoin_data_plain (dir b : String) (hne : dir ≠ "")
    (hlast : dir.data.getLast? ≠ some '/') (hb : ('/' : Char) ∉ b.data) :
    (osJoin dir b).data = dir.data ++ '/' :: b.data := by
  unfold osJoin
  rw [if_neg (head_ne_slash _ hb), if_neg (by
    intro hor
    rcases hor with h1 | h2
    · exact hlast h1
    · exact hne h2)]
  simp [String.data_append]

/-- Joining the literal temp_images/ directory with a slash-free name. -/
theorem osJoin_data_trailing (b : String) (hb : ('/' : Char) ∉ b.data) :
    (osJoin "temp_images/" b).data =
      ("temp_images" : String).data ++ '/' :: b.data := by
  unfold osJoin
  rw [if_neg (head_ne_slash _ hb), if_pos (Or.inl (by decide))]
  have hsplit : ("temp_images/" : String).data =
      ("temp_images" : String).data ++ ['/'] := by decide
  rw [String.data_append, hsplit, List.append_assoc]
  rfl

/-- A path whose characters are a namespace directory, one slash and an
ordinary slash-free component resolves inside that namespace. -/
theorem resolvesInside_of_data (dir b p : String)
    (hp : p.data = dir.data ++ '/' :: b.data)
    (hdir_s : ('/' : Char) ∉ dir.data)
    (hdir1 : ¬(dir.data = [] ∨ dir.data = ['.']))
    (hdir2 : dir.data ≠ ['.', '.'])
    (hb_s : ('/' : Char) ∉ b.data)
    (hb1 : ¬(b.data = [] ∨ b.data = ['.']))
    (hb2 : b.data ≠ ['.', '.']) :
    resolvesInside dir p = true := by
  unfold resolvesInside
  rw [hp, splitSlash_append _ _ hdir_s, splitSlash_no_slash _ hb_s,
    normComponents_pair _ _ hdir1 hdir2 hb1 hb2]
  simp

/-- A string containing an underscore is neither empty nor a dot component. -/
theorem underscore_not_dots (l : List Char) (h : ('_' : Char) ∈ l) :
    ¬(l = [] ∨ l = ['.']) ∧ l ≠ ['.', '.'] := by
  refine ⟨?_, ?_⟩
  · intro hor
    rcases hor with h1 | h1 <;> rw [h1] at h <;> simp at h
  · intro h1
    rw [h1] at h
    simp at h

/-- C7 counterexample: the document endpoint writes the uploaded bytes to
os.path.join(TEMP_DOC_DIR, file.filename) with the client-controlled
declared filename unsanitized; for the filename ../evil.docx that input
path resolves to evil.docx, outside the temp_documents namespace. -/
theorem temp_namespace_escape_cex :
    docInputPath "../evil.docx" = "temp_documents/../evil.docx"
    ∧ resolvesInside TEMP_DOC_DIR (docInputPath "../evil.docx") = false
    ∧ normComponents (splitSlash ("temp_documents/../evil.docx" : String).data)
        = [("evil.docx" : String).data] := by
  refine ⟨by decide, by decide, by decide⟩

/-- C7 (amended): for every declared filename that is free of path
separators and is not empty, a dot or a double dot, and every target
token free of separators (every allow-listed token is), all four written
paths - the document input copy, the document output, the image input
copy of the HEIF branch and the image output - resolve inside the temp
namespace of their domain; a filename with traversal components escapes,
as the counterexample shows. -/
theorem temp_namespace_amended (filename convertTo : String) (t : PyDateTime)
    (h1 : ('/' : Char) ∉ filename.data) (h2 : filename ≠ "")
    (h3 : filename ≠ ".") (h4 : filename ≠ "..")
    (h5 : ('/' : Char) ∉ convertTo.data) :
    resolvesInside TEMP_DOC_DIR (docInputPath filename) = true
    ∧ resolvesInside TEMP_DOC_DIR (docOutputPath filename convertTo t) = true
    ∧ resolvesInside TEMP_IMAGE_DIR (imageInputPath filename) = true
    ∧ resolvesInside TEMP_IMAGE_DIR
        (imageOutputPath filename (correctImageFormat convertTo) t) = true := by
  have hfd : filename.data ≠ [] := fun he => h2 (String.ext he)
  have hfdot : filename.data ≠ ['.'] := fun he => h3 (String.ext he)
  have hfdd : filename.data ≠ ['.', '.'] := fun he => h4 (String.ext he)
  have hfn : ¬(filename.data = [] ∨ filename.data = ['.']) := by
    intro hor
    rcases hor with ha | ha
    · exact hfd ha
    · exact hfdot ha
  have hdocslash : ('/' : Char) ∉ (docOutputFilename filename convertTo t).data := by
    unfold docOutputFilename
    rw [nameData]
    intro hm
    rcases List.mem_append.mp hm with hm | hm
    · exact h1 (splitextData_fst_subset filename.data '/' hm)
    · rcases List.mem_cons.mp hm with hm | hm
      · exact absurd hm (by decide)
      · rcases List.mem_append.mp hm with hm | hm
        · exact strftime_no_slash t hm
        · rcases List.mem_cons.mp hm with hm | hm
          · exact absurd hm (by decide)
          · exact pyLower_no_slash convertTo h5 hm
  have hdocname : ('_' : Char) ∈ (docOutputFilename filename convertTo t).data := by
    unfold docOutputFilename
    rw [nameData]
    exact List.mem_append.mpr (Or.inr (List.mem_cons_self _ _))
  have himgslash : ('/' : Char)
      ∉ (imageOutputFilename filename (correctImageFormat convertTo) t).data := by
    unfold imageOutputFilename
    rw [nameData]
    intro hm
    rcases List.mem_append.mp hm with hm | hm
    · exact h1 (splitextData_fst_subset filename.data '/' hm)
    · rcases List.mem_cons.mp hm with hm | hm
      · exact absurd hm (by decide)
      · rcases List.mem_append.mp hm with hm | hm
        · exact strftime_no_slash t hm
        · rcases List.mem_cons.mp hm with hm | hm
          · exact absurd hm (by decide)
          · exact pyLower_no_slash _ (correctImageFormat_no_slash _ h5) hm
  have himgname : ('_' : Char)
      ∈ (imageOutputFilename filename (correctImageFormat convertTo) t).data := by
    unfold imageOutputFilename
    rw [nameData]
    exact List.mem_append.mpr (Or.inr (List.mem_cons_self _ _))
  obtain ⟨hdn1, hdn2⟩ := underscore_not_dots _ hdocname
  obtain ⟨hin1, hin2⟩ := underscore_not_dots _ himgname
  refine ⟨?_, ?_, ?_, ?_⟩
  · exact resolvesInside_of_data TEMP_DOC_DIR filename _
      (osJoin_data_plain _ _ (by decide) (by decide) h1)
      (by decide) (by decide) (by decide) h1 hfn hfdd
  · exact resolvesInside_of_data TEMP_DOC_DIR _ _
      (osJoin_data_plain _ _ (by decide) (by decide) hdocslash)
      (by decide) (by decide) (by decide) hdocslash hdn1 hdn2
  · exact resolvesInside_of_data TEMP_IMAGE_DIR filename _
      (osJoin_data_plain _ _ (by decide) (by decide) h1)
      (by decide) (by decide) (by decide) h1 hfn hfdd
  · exact resolvesInside_of_data TEMP_IMAGE_DIR _ _
      (osJoin_data_trailing _ himgslash)
      (by decide) (by decide) (by decide) himgslash hin1 hin2

/-- C7 witness: an ordinary declared filename keeps all four written paths
inside their namespaces. -/
theorem temp_namespace_amended_witness :
    resolvesInside TEMP_DOC_DIR (docInputPath "report.docx") = true
    ∧ resolvesInside TEMP_DOC_DIR
        (docOutputPath "report.docx" "pdf" ⟨2024, 6, 26, 22, 39, 34, 0⟩) = true
    ∧ resolvesInside TEMP_IMAGE_DIR (imageInputPath "report.docx") = true
    ∧ resolvesInside TEMP_IMAGE_DIR
        (imageOutputPath "report.docx" (correctImageFormat "pdf")
          ⟨2024, 6, 26, 22, 39, 34, 0⟩) = true :=
  temp_namespace_amended "report.docx" "pdf" ⟨2024, 6, 26, 22, 39, 34, 0⟩
    (by decide) (by decide) (by decide) (by decide) (by decide)


end Reformatit
